import Mathlib

/-!
Verification of the VISIA impact-scoring engine
(`visia_calculators.py` / `visia_database.py`).

Shallow embedding conventions:
* Python `float` values are modelled as exact rationals (`ℚ`); `int` as `ℤ`.
* Python `int(x)` truncates toward zero: `pyInt`.
* Python `round(x, n)` rounds half to even: `pyRound2` / `pyRound1`.
* Python `float('inf')` (the payback sentinel) is the `Payback.inf` constructor.
* A Python `ZeroDivisionError` is modelled by an `Option` result: `none` marks
  the raised exception, `some r` a normal return.
* Narrative fields (`observacoes`, `metodologia`) and the unused
  `customizacoes` parameter are presentation-only and are omitted.
-/

/-- Python `int()` applied to a float: truncation toward zero. -/
def pyInt (q : ℚ) : ℤ := if q < 0 then ⌈q⌉ else ⌊q⌋

/-- Round to the nearest integer, ties to even (Python `round` semantics). -/
def roundHE (q : ℚ) : ℤ :=
  if q - ⌊q⌋ < 1/2 then ⌊q⌋
  else if (1:ℚ)/2 < q - ⌊q⌋ then ⌊q⌋ + 1
  else if ⌊q⌋ % 2 = 0 then ⌊q⌋ else ⌊q⌋ + 1

/-- Python `round(x, 2)`. -/
def pyRound2 (q : ℚ) : ℚ := (roundHE (q * 100) : ℚ) / 100

/-- Python `round(x, 1)`. -/
def pyRound1 (q : ℚ) : ℚ := (roundHE (q * 10) : ℚ) / 10

/-- Payback time: finite number of years or the `float('inf')` sentinel. -/
inductive Payback where
  | finite (anos : ℚ) : Payback
  | inf : Payback
deriving DecidableEq, Repr

/-- Python `s.lower()` restricted to the ASCII keys used by the tables. -/
def pyLower (s : String) : String := String.mk (s.data.map Char.toLower)

/-- Python `s.lower().replace(" ", "_")` as used by the lookup helpers. -/
def pyLowerUnderscore (s : String) : String :=
  String.mk (s.data.map (fun c => if c = ' ' then '_' else c.toLower))

/-! ## visia_database.py — reference constants and lookup helpers -/

/-- `TRABALHO["arrecadacao_governo"]` tiers; `get_arrecadacao_trabalhador`. -/
def get_arrecadacao_trabalhador (salarios_minimos : ℤ) : ℚ :=
  if salarios_minimos ≤ 1 then 5004
  else if salarios_minimos ≤ 5 then 21804
  else 49420

/-- `get_economia_bolsa_familia_ano()` = `PROGRAMAS_SOCIAIS["bolsa_familia"]["custo_familia_ano"]`. -/
def get_economia_bolsa_familia_ano : ℚ := 8196

/-- `EDUCACAO["impacto"]["economia_evasao_evitada_min"]`. -/
def economia_evasao_evitada_min : ℚ := 50000

/-- `MEIO_AMBIENTE["carbono"]["sequestro_floresta_ton_ha_ano"]`. -/
def sequestro_floresta_ton_ha_ano : ℚ := 10

/-- `MEIO_AMBIENTE["carbono"]["preco_tonelada_co2_usd_medio"]`. -/
def preco_tonelada_co2_usd_medio : ℚ := 25

/-- `MACROECONOMIA["cotacao_dolar"]` = 5.75. -/
def cotacao_dolar : ℚ := 23/4

/-- `MEIO_AMBIENTE["psa"]` per-hectare PSA bounds (500 / 1850). -/
def valor_hectare_conservado_ano_min : ℚ := 500

def valor_hectare_conservado_ano_max : ℚ := 1850

/-- SROI reference range: the `{"min", "max", "medio"}` dicts of
`SROI_REFERENCIAS["por_tipo_projeto"]`. -/
structure SroiRef where
  min : ℚ
  max : ℚ
  medio : ℚ
deriving DecidableEq, Repr

/-- `get_sroi_referencia`: dict lookup over `por_tipo_projeto` with the
documented default `{"min": 1.0, "max": 3.0, "medio": 2.0}`. -/
def get_sroi_referencia (tipo_projeto : String) : SroiRef :=
  let t := pyLowerUnderscore tipo_projeto
  if t = "educacao_basica" then ⟨3/2, 7/2, 5/2⟩
  else if t = "qualificacao_profissional" then ⟨7/2, 34/5, 5⟩
  else if t = "primeira_infancia" then ⟨7, 13, 10⟩
  else if t = "saude_preventiva" then ⟨2, 4, 3⟩
  else if t = "meio_ambiente" then ⟨3/2, 4, 5/2⟩
  else if t = "ressocializacao" then ⟨2, 5, 7/2⟩
  else if t = "esporte_cultura" then ⟨6/5, 5/2, 9/5⟩
  else ⟨1, 3, 2⟩

/-- `SEGURANCA_CRIME["custo_por_crime"]` dict lookup with default 50000
(`get_custo_crime`); the key is lowercased first. -/
def get_custo_crime (tipo_crime : String) : ℚ :=
  let t := pyLower tipo_crime
  if t = "homicidio" then 1000000
  else if t = "latrocinio" then 1200000
  else if t = "roubo_carga_medio" then 114000
  else if t = "roubo_veiculo_medio" then 45000
  else if t = "furto_medio" then 5000
  else if t = "estelionato_medio" then 22000
  else 50000

/-- `get_custo_preso_anual`: federal vs. estadual annual incarceration cost. -/
def get_custo_preso_anual (tipo : String) : ℚ :=
  if pyLower tipo = "federal" then 489600 else 27978

/-- `MEIO_AMBIENTE["custo_recuperacao_hectare"]` as an optional lookup
(`some` iff the key is present, mirroring Python `key in dict` / `dict[key]`). -/
def custo_recuperacao_lookup (k : String) : Option ℚ :=
  if k = "amazonia" then some 2000
  else if k = "mata_atlantica" then some 2100
  else if k = "cerrado" then some 3000
  else if k = "caatinga" then some 1800
  else if k = "pantanal" then some 2200
  else if k = "pampa" then some 1900
  else if k = "regeneracao_natural" then some 800
  else if k = "regeneracao_assistida" then some 1200
  else if k = "plantio_total" then some 2500
  else none

/-- `get_custo_recuperacao`: normalized-biome lookup with default 2500. -/
def get_custo_recuperacao (bioma : String) : ℚ :=
  (custo_recuperacao_lookup (pyLowerUnderscore bioma)).getD 2500

/-- Result of `calcular_multiplicador_social` (the returned dict). -/
structure MultiplicadorSocial where
  beneficiarios_diretos : ℤ
  impacto_familiar : ℤ
  impacto_comunitario : ℤ
  impacto_total : ℤ
  multiplicador_total : ℚ
deriving DecidableEq, Repr

/-- `calcular_multiplicador_social`: family multiplier 3.5, community
multiplier 2.0 (the `medio` entries of `SROI_REFERENCIAS["multiplicadores"]`).
The final field divides by `beneficiarios_diretos` unconditionally, so
`beneficiarios_diretos = 0` raises `ZeroDivisionError` (modelled as `none`). -/
def calcular_multiplicador_social (beneficiarios_diretos : ℤ) : Option MultiplicadorSocial :=
  if beneficiarios_diretos = 0 then none
  else
    let impacto_familiar := pyInt ((beneficiarios_diretos : ℚ) * (7/2))
    let impacto_comunitario := pyInt ((impacto_familiar : ℚ) * 2)
    some { beneficiarios_diretos := beneficiarios_diretos
           impacto_familiar := impacto_familiar
           impacto_comunitario := impacto_comunitario
           impacto_total := impacto_comunitario
           multiplicador_total :=
             pyRound2 ((impacto_comunitario : ℚ) / (beneficiarios_diretos : ℚ)) }

/-! ## visia_calculators.py — result records -/

/-- `ResultadoSROI` (narrative fields omitted). -/
structure ResultadoSROI where
  investimento : ℚ
  valor_social_bruto : ℚ
  valor_social_liquido : ℚ
  sroi : ℚ
  sroi_range : ℚ × ℚ
  componentes : List (String × ℚ)
deriving DecidableEq, Repr

/-- The `crimes_evitados` dict of `ResultadoCrime`. -/
structure CrimesEvitados where
  homicidios : ℤ
  roubos : ℤ
  furtos : ℤ
  trafico : ℤ
  outros : ℤ
deriving DecidableEq, Repr

/-- `sum(crimes_evitados.values())`. -/
def CrimesEvitados.total (c : CrimesEvitados) : ℤ :=
  c.homicidios + c.roubos + c.furtos + c.trafico + c.outros

/-- `ResultadoCrime` (narrative fields omitted). -/
structure ResultadoCrime where
  investimento : ℚ
  crimes_evitados : CrimesEvitados
  economia_total : ℚ
  economia_encarceramento : ℚ
  economia_seguranca : ℚ
  economia_saude : ℚ
  roi_seguranca : ℚ
deriving DecidableEq, Repr

/-- `ResultadoAmbiental` (narrative fields omitted). -/
structure ResultadoAmbiental where
  investimento : ℚ
  hectares_recuperados : ℚ
  bioma : String
  custo_por_hectare : ℚ
  beneficios_carbono : ℚ
  beneficios_psa : ℚ
  beneficios_biodiversidade : ℚ
  valor_total_beneficios : ℚ
  roi_ambiental : ℚ
  toneladas_co2_sequestradas : ℚ
deriving DecidableEq, Repr

/-- `ResultadoFiscal` (narrative fields omitted). -/
structure ResultadoFiscal where
  investimento_publico : ℚ
  arrecadacao_gerada : ℚ
  economia_programas_sociais : ℚ
  economia_saude : ℚ
  economia_seguranca : ℚ
  retorno_fiscal_total : ℚ
  roi_fiscal : ℚ
  tempo_payback_anos : Payback
deriving DecidableEq, Repr

/-- `ResultadoIntegrado` (narrative fields omitted). -/
structure ResultadoIntegrado where
  projeto : String
  investimento_total : ℚ
  beneficiarios_diretos : ℤ
  impacto_total_pessoas : ℤ
  sroi : ResultadoSROI
  crime : Option ResultadoCrime
  ambiental : Option ResultadoAmbiental
  fiscal : ResultadoFiscal
  uisv : ℚ
  tcs_recomendados : ℤ
  classificacao : String
deriving DecidableEq, Repr

/-! ## Calculators -/

/-- `calcular_sroi`.  The components dict is kept as an association list in
insertion order; the baseline fallback divides by `beneficiarios_diretos`
(`ZeroDivisionError`, i.e. `none`, when it is 0 and no component exists). -/
def calcular_sroi (investimento : ℚ) (tipo_projeto : String)
    (beneficiarios_diretos : ℤ) (duracao_anos : ℤ) (empregos_gerados : ℤ)
    (familias_saem_vulnerabilidade : ℤ) (alunos_evitam_evasao : ℤ)
    (hectares_recuperados : ℚ) : Option ResultadoSROI :=
  let sroi_ref := get_sroi_referencia tipo_projeto
  let componentes0 : List (String × ℚ) :=
    (if 0 < empregos_gerados then
      [("empregos_gerados",
        (empregos_gerados : ℚ) * get_arrecadacao_trabalhador 2 * (duracao_anos : ℚ))]
     else []) ++
    (if 0 < familias_saem_vulnerabilidade then
      [("saida_vulnerabilidade",
        (familias_saem_vulnerabilidade : ℚ) * get_economia_bolsa_familia_ano *
          (duracao_anos : ℚ))]
     else []) ++
    (if 0 < alunos_evitam_evasao then
      [("prevencao_evasao",
        (alunos_evitam_evasao : ℚ) * economia_evasao_evitada_min * (1/10))]
     else []) ++
    (if 0 < hectares_recuperados then
      [("recuperacao_ambiental",
        hectares_recuperados * sequestro_floresta_ton_ha_ano *
          (preco_tonelada_co2_usd_medio * cotacao_dolar) * (duracao_anos : ℚ))]
     else [])
  let componentesOpt : Option (List (String × ℚ)) :=
    if componentes0.isEmpty then
      if beneficiarios_diretos = 0 then none
      else
        some [("impacto_direto_beneficiarios",
          (beneficiarios_diretos : ℚ) *
            (investimento * sroi_ref.medio / (beneficiarios_diretos : ℚ)) * (1/2))]
    else some componentes0
  componentesOpt.map (fun componentes =>
    let valor_social_bruto := (componentes.map Prod.snd).sum
    let valor_social_liquido := valor_social_bruto - investimento
    let sroi := if 0 < investimento then valor_social_liquido / investimento else 0
    let sroi_ajustado := max (sroi_ref.min * (1/2)) (min sroi (sroi_ref.max * (3/2)))
    { investimento := investimento
      valor_social_bruto := valor_social_bruto
      valor_social_liquido := valor_social_liquido
      sroi := pyRound2 sroi_ajustado
      sroi_range := (sroi_ref.min, sroi_ref.max)
      componentes := componentes })

/-- Base criminal-involvement rate: 0.05 for urban areas, 0.03 otherwise. -/
def taxa_envolvimento_base (tipo_area : String) : ℚ :=
  if tipo_area = "urbana" then 1/20 else 3/100

/-- `jovens_evitam_crime = int(beneficiarios_jovens * taxa_envolvimento_base *
taxa_reducao_crime)`. -/
def jovens_evitam_crime_calc (beneficiarios_jovens : ℤ) (taxa_reducao_crime : ℚ)
    (tipo_area : String) : ℤ :=
  pyInt ((beneficiarios_jovens : ℚ) * taxa_envolvimento_base tipo_area *
    taxa_reducao_crime)

/-- The `crimes_evitados` dict construction: fixed proportions with the
homicide entry forced to at least 1 by `max(1, ...)`. -/
def crimes_evitados_calc (jovens_evitam_crime : ℤ) : CrimesEvitados :=
  { homicidios := max 1 (pyInt ((jovens_evitam_crime : ℚ) * (2/100)))
    roubos := pyInt ((jovens_evitam_crime : ℚ) * (15/100))
    furtos := pyInt ((jovens_evitam_crime : ℚ) * (25/100))
    trafico := pyInt ((jovens_evitam_crime : ℚ) * (10/100))
    outros := pyInt ((jovens_evitam_crime : ℚ) * (48/100)) }

/-- `calcular_impacto_crime`.  Python defaults: `taxa_reducao_crime=0.70`,
`tipo_area="urbana"`, `populacao_area=100000` (the last is unused). -/
def calcular_impacto_crime (investimento : ℚ) (beneficiarios_jovens : ℤ)
    (duracao_anos : ℤ) (taxa_reducao_crime : ℚ) (tipo_area : String)
    (_populacao_area : ℤ) : ResultadoCrime :=
  let jovens_evitam_crime :=
    jovens_evitam_crime_calc beneficiarios_jovens taxa_reducao_crime tipo_area
  let crimes_evitados := crimes_evitados_calc jovens_evitam_crime
  let economia_homicidios := (crimes_evitados.homicidios : ℚ) * get_custo_crime "homicidio"
  let economia_roubos := (crimes_evitados.roubos : ℚ) * get_custo_crime "roubo_carga_medio"
  let economia_furtos := (crimes_evitados.furtos : ℚ) * get_custo_crime "furto"
  let economia_trafico := (crimes_evitados.trafico : ℚ) * 100000
  let economia_outros := (crimes_evitados.outros : ℚ) * 20000
  let economia_total_crimes := economia_homicidios + economia_roubos +
    economia_furtos + economia_trafico + economia_outros
  let encarcerados_evitados := pyInt ((jovens_evitam_crime : ℚ) * (30/100))
  let economia_encarceramento := (encarcerados_evitados : ℚ) *
    get_custo_preso_anual "estadual" * ((min duracao_anos 5 : ℤ) : ℚ)
  let economia_seguranca := economia_total_crimes * (15/100)
  let economia_saude := (crimes_evitados.homicidios : ℚ) * 50000 +
    ((crimes_evitados.roubos + crimes_evitados.outros : ℤ) : ℚ) * 5000
  let economia_total := economia_total_crimes + economia_encarceramento +
    economia_seguranca + economia_saude
  let roi_seguranca := if 0 < investimento then economia_total / investimento else 0
  { investimento := investimento
    crimes_evitados := crimes_evitados
    economia_total := economia_total
    economia_encarceramento := economia_encarceramento
    economia_seguranca := economia_seguranca
    economia_saude := economia_saude
    roi_seguranca := pyRound2 roi_seguranca }

/-- `calcular_impacto_ambiental`.  Python defaults:
`metodo_recuperacao="plantio_total"`, `incluir_psa=True`, `incluir_carbono=True`. -/
def calcular_impacto_ambiental (investimento : ℚ) (hectares : ℚ) (bioma : String)
    (metodo_recuperacao : String) (anos_projeto : ℤ)
    (incluir_psa : Bool) (incluir_carbono : Bool) : ResultadoAmbiental :=
  let custo_hectare :=
    match custo_recuperacao_lookup metodo_recuperacao with
    | some v => v
    | none => get_custo_recuperacao bioma
  let toneladas_co2 : ℚ :=
    if incluir_carbono then hectares * sequestro_floresta_ton_ha_ano * (anos_projeto : ℚ)
    else 0
  let beneficios_carbono : ℚ :=
    if incluir_carbono then
      toneladas_co2 * (preco_tonelada_co2_usd_medio * cotacao_dolar)
    else 0
  let beneficios_psa : ℚ :=
    if incluir_psa then
      hectares * ((valor_hectare_conservado_ano_min + valor_hectare_conservado_ano_max) / 2) *
        (anos_projeto : ℚ)
    else 0
  let beneficios_biodiversidade := hectares * 500 * (anos_projeto : ℚ)
  let valor_total_beneficios := beneficios_carbono + beneficios_psa + beneficios_biodiversidade
  let roi_ambiental :=
    if 0 < investimento then (valor_total_beneficios - investimento) / investimento else 0
  { investimento := investimento
    hectares_recuperados := hectares
    bioma := bioma
    custo_por_hectare := custo_hectare
    beneficios_carbono := beneficios_carbono
    beneficios_psa := beneficios_psa
    beneficios_biodiversidade := beneficios_biodiversidade
    valor_total_beneficios := valor_total_beneficios
    roi_ambiental := pyRound2 roi_ambiental
    toneladas_co2_sequestradas := toneladas_co2 }

/-- `calcular_retorno_fiscal`.  Payback is an explicit sentinel (`Payback.inf`)
when the annualized return is not positive; Python's `round(·, 1)` maps the
`float('inf')` sentinel to itself. -/
def calcular_retorno_fiscal (investimento_publico : ℚ) (empregos_gerados : ℤ)
    (familias_saem_bf : ℤ) (crimes_evitados : ℤ) (internacoes_evitadas : ℤ)
    (anos_horizonte : ℤ) : ResultadoFiscal :=
  let arrecadacao_empregos : ℚ :=
    if 0 < empregos_gerados then
      (empregos_gerados : ℚ) * get_arrecadacao_trabalhador 2 * (anos_horizonte : ℚ)
    else 0
  let economia_bf : ℚ :=
    if 0 < familias_saem_bf then
      (familias_saem_bf : ℚ) * get_economia_bolsa_familia_ano * (anos_horizonte : ℚ)
    else 0
  let economia_seguranca : ℚ :=
    if 0 < crimes_evitados then (crimes_evitados : ℚ) * 150000 else 0
  let economia_saude : ℚ :=
    if 0 < internacoes_evitadas then (internacoes_evitadas : ℚ) * 3500 else 0
  let arrecadacao_gerada := arrecadacao_empregos
  let economia_programas := economia_bf
  let retorno_fiscal_total := arrecadacao_gerada + economia_programas +
    economia_seguranca + economia_saude
  let roi_fiscal :=
    if 0 < investimento_publico then retorno_fiscal_total / investimento_publico else 0
  let retorno_anual :=
    if 0 < anos_horizonte then retorno_fiscal_total / (anos_horizonte : ℚ)
    else retorno_fiscal_total
  let tempo_payback_anos : Payback :=
    if 0 < retorno_anual then
      Payback.finite (pyRound1 (investimento_publico / retorno_anual))
    else Payback.inf
  { investimento_publico := investimento_publico
    arrecadacao_gerada := arrecadacao_gerada
    economia_programas_sociais := economia_programas
    economia_saude := economia_saude
    economia_seguranca := economia_seguranca
    retorno_fiscal_total := retorno_fiscal_total
    roi_fiscal := pyRound2 roi_fiscal
    tempo_payback_anos := tempo_payback_anos }

/-- The classification if-chain of `calcular_visia_integrado` (step 8). -/
def classificar (uisv : ℚ) : String :=
  if 20 ≤ uisv then "A"
  else if 12 ≤ uisv then "B"
  else if 6 ≤ uisv then "C"
  else "D"

/-- `bonus_crime = resultado_crime.roi_seguranca * 0.5 if resultado_crime else 0`. -/
def bonusCrime : Option ResultadoCrime → ℚ
  | some c => c.roi_seguranca * (1/2)
  | none => 0

/-- `bonus_ambiental = resultado_ambiental.roi_ambiental * 0.5 if resultado_ambiental else 0`. -/
def bonusAmbiental : Option ResultadoAmbiental → ℚ
  | some a => a.roi_ambiental * (1/2)
  | none => 0

/-- `calcular_visia_integrado`.  Python defaults for the sub-calls are passed
explicitly: the crime calculator gets `taxa_reducao_crime=0.70`,
`tipo_area="urbana"`, `populacao_area=100000`, the environmental calculator
`metodo_recuperacao="plantio_total"`, `incluir_psa=True`, `incluir_carbono=True`.
`none` marks a propagated `ZeroDivisionError`. -/
def calcular_visia_integrado (nome_projeto : String) (investimento_total : ℚ)
    (tipo_projeto : String) (beneficiarios_diretos : ℤ) (duracao_anos : ℤ)
    (empregos_gerados : ℤ) (familias_saem_vulnerabilidade : ℤ)
    (alunos_evitam_evasao : ℤ) (jovens_atendidos : ℤ)
    (hectares_recuperados : ℚ) (bioma : String)
    (calcular_crime : Bool) (calcular_ambiental : Bool) : Option ResultadoIntegrado :=
  match calcular_sroi investimento_total tipo_projeto beneficiarios_diretos
      duracao_anos empregos_gerados familias_saem_vulnerabilidade
      alunos_evitam_evasao hectares_recuperados with
  | none => none
  | some resultado_sroi =>
    let resultado_crime : Option ResultadoCrime :=
      if calcular_crime ∧ 0 < jovens_atendidos then
        some (calcular_impacto_crime (investimento_total * (3/10)) jovens_atendidos
          duracao_anos (7/10) "urbana" 100000)
      else none
    let resultado_ambiental : Option ResultadoAmbiental :=
      if calcular_ambiental ∧ 0 < hectares_recuperados then
        some (calcular_impacto_ambiental (investimento_total * (4/10))
          hectares_recuperados bioma "plantio_total" (max duracao_anos 10) true true)
      else none
    let crimes_evitados : ℤ :=
      match resultado_crime with
      | some c => c.crimes_evitados.total
      | none => 0
    let resultado_fiscal := calcular_retorno_fiscal investimento_total
      empregos_gerados familias_saem_vulnerabilidade crimes_evitados 0
      (max duracao_anos 10)
    match calcular_multiplicador_social beneficiarios_diretos with
    | none => none
    | some multiplicador =>
      let impacto_total_pessoas := multiplicador.impacto_total
      let uisv_base := resultado_sroi.sroi * 2 + resultado_fiscal.roi_fiscal * 3
      let uisv_pessoas := (impacto_total_pessoas : ℚ) / 100
      let uisv := pyRound2 (uisv_base + uisv_pessoas +
        bonusCrime resultado_crime + bonusAmbiental resultado_ambiental)
      let fator_escala : ℚ := 3/10
      let tcs_recomendados :=
        max 100 (pyInt (uisv * fator_escala * (investimento_total / 10000)))
      some { projeto := nome_projeto
             investimento_total := investimento_total
             beneficiarios_diretos := beneficiarios_diretos
             impacto_total_pessoas := impacto_total_pessoas
             sroi := resultado_sroi
             crime := resultado_crime
             ambiental := resultado_ambiental
             fiscal := resultado_fiscal
             uisv := uisv
             tcs_recomendados := tcs_recomendados
             classificacao := classificar uisv }

/-! ## Arithmetic helper lemmas -/

lemma roundHE_cases (q : ℚ) : roundHE q = ⌊q⌋ ∨ roundHE q = ⌊q⌋ + 1 := by
  unfold roundHE; split_ifs <;> simp

lemma le_roundHE (m : ℤ) (q : ℚ) (h : (m : ℚ) ≤ q) : m ≤ roundHE q := by
  have h1 : m ≤ ⌊q⌋ := Int.le_floor.mpr h
  rcases roundHE_cases q with h2 | h2 <;> omega

lemma roundHE_le (n : ℤ) (q : ℚ) (h : q ≤ (n : ℚ)) : roundHE q ≤ n := by
  have h1 : ⌊q⌋ ≤ n := by
    have := Int.floor_le_floor h
    simpa using this
  have hfl : (⌊q⌋ : ℚ) ≤ q := Int.floor_le q
  unfold roundHE
  split_ifs with h2 h3 h4
  · exact h1
  · by_contra hc
    have he : ⌊q⌋ = n := by omega
    rw [he] at h3
    have : (1:ℚ)/2 < q - n := h3
    linarith
  · exact h1
  · by_contra hc
    have he : ⌊q⌋ = n := by omega
    have h5 : ¬ (q - ⌊q⌋ < 1/2) := h2
    rw [he] at h5
    have : (1:ℚ)/2 ≤ q - n := by linarith [not_lt.mp h5]
    linarith

lemma le_pyRound2 (m : ℤ) (q : ℚ) (h : (m : ℚ)/100 ≤ q) : (m : ℚ)/100 ≤ pyRound2 q := by
  have h1 : (m : ℚ) ≤ q * 100 := by linarith
  have h2 := le_roundHE m _ h1
  have h3 : (m : ℚ) ≤ (roundHE (q * 100) : ℚ) := by exact_mod_cast h2
  unfold pyRound2
  linarith

lemma pyRound2_le (n : ℤ) (q : ℚ) (h : q ≤ (n : ℚ)/100) : pyRound2 q ≤ (n : ℚ)/100 := by
  have h1 : q * 100 ≤ (n : ℚ) := by linarith
  have h2 := roundHE_le n _ h1
  have h3 : (roundHE (q * 100) : ℚ) ≤ (n : ℚ) := by exact_mod_cast h2
  unfold pyRound2
  linarith

lemma pyRound2_nonneg (q : ℚ) (h : 0 ≤ q) : 0 ≤ pyRound2 q := by
  have := le_pyRound2 0 q (by simpa using h)
  simpa using this

lemma pyInt_of_nonneg (q : ℚ) (h : 0 ≤ q) : pyInt q = ⌊q⌋ := by
  unfold pyInt
  rw [if_neg (not_lt.mpr h)]

lemma pyInt_nonneg (q : ℚ) (h : 0 ≤ q) : 0 ≤ pyInt q := by
  rw [pyInt_of_nonneg q h]
  exact Int.floor_nonneg.mpr h

/-- Facts about every resolvable SROI reference range: the clamp bounds are
integer multiples of 1/100, are ordered, and the range minimum is at least 1. -/
lemma sroi_ref_facts (s : String) :
    1 ≤ (get_sroi_referencia s).min ∧
    ∃ m n : ℤ, (get_sroi_referencia s).min * (1/2) = (m : ℚ)/100 ∧
      (get_sroi_referencia s).max * (3/2) = (n : ℚ)/100 ∧
      (m : ℚ)/100 ≤ (n : ℚ)/100 := by
  simp only [get_sroi_referencia]
  split_ifs
  · exact ⟨by norm_num, 75, 525, by norm_num, by norm_num, by norm_num⟩
  · exact ⟨by norm_num, 175, 1020, by norm_num, by norm_num, by norm_num⟩
  · exact ⟨by norm_num, 350, 1950, by norm_num, by norm_num, by norm_num⟩
  · exact ⟨by norm_num, 100, 600, by norm_num, by norm_num, by norm_num⟩
  · exact ⟨by norm_num, 75, 600, by norm_num, by norm_num, by norm_num⟩
  · exact ⟨by norm_num, 100, 750, by norm_num, by norm_num, by norm_num⟩
  · exact ⟨by norm_num, 60, 375, by norm_num, by norm_num, by norm_num⟩
  · exact ⟨by norm_num, 50, 450, by norm_num, by norm_num, by norm_num⟩

/-! ## Constant evaluation lemmas -/

lemma get_arrecadacao_trabalhador_two : get_arrecadacao_trabalhador 2 = 21804 := rfl

lemma get_custo_crime_homicidio : get_custo_crime "homicidio" = 1000000 := rfl

lemma get_custo_crime_roubo : get_custo_crime "roubo_carga_medio" = 114000 := rfl

lemma get_custo_crime_furto : get_custo_crime "furto" = 50000 := rfl

lemma get_custo_preso_estadual : get_custo_preso_anual "estadual" = 27978 := rfl

lemma taxa_envolvimento_base_nonneg (a : String) : 0 ≤ taxa_envolvimento_base a := by
  unfold taxa_envolvimento_base
  split_ifs <;> norm_num

/-! ## Social-return calculator lemmas -/

lemma calcular_sroi_some_spec (inv : ℚ) (t : String) (b d e f a : ℤ) (h : ℚ)
    (r : ResultadoSROI) (hr : calcular_sroi inv t b d e f a h = some r) :
    r.sroi = pyRound2 (max ((get_sroi_referencia t).min * (1/2))
      (min (if 0 < inv then r.valor_social_liquido / inv else 0)
        ((get_sroi_referencia t).max * (3/2)))) := by
  simp only [calcular_sroi] at hr
  rcases Option.map_eq_some'.mp hr with ⟨L, _, hfn⟩
  subst hfn
  rfl

lemma calcular_sroi_bounds (inv : ℚ) (t : String) (b d e f a : ℤ) (h : ℚ)
    (r : ResultadoSROI) (hr : calcular_sroi inv t b d e f a h = some r) :
    (get_sroi_referencia t).min * (1/2) ≤ r.sroi ∧
      r.sroi ≤ (get_sroi_referencia t).max * (3/2) := by
  obtain ⟨-, m, n, hm, hn, hmn⟩ := sroi_ref_facts t
  have hs := calcular_sroi_some_spec inv t b d e f a h r hr
  set x := (if 0 < inv then r.valor_social_liquido / inv else 0) with hx
  have hab : (get_sroi_referencia t).min * (1/2) ≤ (get_sroi_referencia t).max * (3/2) := by
    rw [hm, hn]; exact hmn
  constructor
  · rw [hs, hm]
    apply le_pyRound2
    rw [← hm]
    exact le_max_left _ _
  · rw [hs, hn]
    apply pyRound2_le
    rw [← hn]
    exact max_le hab (min_le_right _ _)

lemma calcular_sroi_ge_half (inv : ℚ) (t : String) (b d e f a : ℤ) (h : ℚ)
    (r : ResultadoSROI) (hr : calcular_sroi inv t b d e f a h = some r) :
    (1:ℚ)/2 ≤ r.sroi := by
  obtain ⟨h1, -⟩ := sroi_ref_facts t
  have h2 := (calcular_sroi_bounds inv t b d e f a h r hr).1
  nlinarith

lemma calcular_sroi_isSome (inv : ℚ) (t : String) (b d e f a : ℤ) (h : ℚ)
    (hb : b ≠ 0) : ∃ rs, calcular_sroi inv t b d e f a h = some rs := by
  simp only [calcular_sroi]
  split_ifs <;> exact ⟨_, rfl⟩

/-! ## Fiscal-return calculator lemmas -/

lemma fiscal_total_nonneg (e f c i anos : ℤ) (ha : 0 ≤ anos) :
    0 ≤ (if 0 < e then (e : ℚ) * get_arrecadacao_trabalhador 2 * (anos : ℚ) else 0) +
      (if 0 < f then (f : ℚ) * get_economia_bolsa_familia_ano * (anos : ℚ) else 0) +
      (if 0 < c then (c : ℚ) * 150000 else 0) +
      (if 0 < i then (i : ℚ) * 3500 else 0) := by
  have haq : (0:ℚ) ≤ (anos : ℚ) := by exact_mod_cast ha
  refine add_nonneg (add_nonneg (add_nonneg ?_ ?_) ?_) ?_
  · split_ifs with hx
    · have hxq : (0:ℚ) ≤ (e : ℚ) := by exact_mod_cast hx.le
      rw [get_arrecadacao_trabalhador_two]
      exact mul_nonneg (mul_nonneg hxq (by norm_num)) haq
    · exact le_refl 0
  · split_ifs with hx
    · have hxq : (0:ℚ) ≤ (f : ℚ) := by exact_mod_cast hx.le
      exact mul_nonneg (mul_nonneg hxq (by norm_num [get_economia_bolsa_familia_ano])) haq
    · exact le_refl 0
  · split_ifs with hx
    · have hxq : (0:ℚ) ≤ (c : ℚ) := by exact_mod_cast hx.le
      exact mul_nonneg hxq (by norm_num)
    · exact le_refl 0
  · split_ifs with hx
    · have hxq : (0:ℚ) ≤ (i : ℚ) := by exact_mod_cast hx.le
      exact mul_nonneg hxq (by norm_num)
    · exact le_refl 0

lemma fiscal_roi_nonneg (inv : ℚ) (e f c i anos : ℤ) (ha : 0 ≤ anos) :
    0 ≤ (calcular_retorno_fiscal inv e f c i anos).roi_fiscal := by
  simp only [calcular_retorno_fiscal]
  apply pyRound2_nonneg
  by_cases hinv : 0 < inv
  · rw [if_pos hinv]
    exact div_nonneg (fiscal_total_nonneg e f c i anos ha) hinv.le
  · rw [if_neg hinv]

/-! ## Crime calculator lemmas -/

lemma jovens_evitam_nonneg (j : ℤ) (taxa : ℚ) (area : String)
    (hj : 0 ≤ j) (ht : 0 ≤ taxa) : 0 ≤ jovens_evitam_crime_calc j taxa area := by
  unfold jovens_evitam_crime_calc
  apply pyInt_nonneg
  have hjq : (0:ℚ) ≤ (j : ℚ) := by exact_mod_cast hj
  exact mul_nonneg (mul_nonneg hjq (taxa_envolvimento_base_nonneg area)) ht

lemma crimes_homicidios_ge_one (je : ℤ) : 1 ≤ (crimes_evitados_calc je).homicidios :=
  le_max_left 1 _

lemma crimes_fields_nonneg (je : ℤ) (h : 0 ≤ je) :
    0 ≤ (crimes_evitados_calc je).homicidios ∧ 0 ≤ (crimes_evitados_calc je).roubos ∧
    0 ≤ (crimes_evitados_calc je).furtos ∧ 0 ≤ (crimes_evitados_calc je).trafico ∧
    0 ≤ (crimes_evitados_calc je).outros := by
  have hq : (0:ℚ) ≤ (je : ℚ) := by exact_mod_cast h
  refine ⟨le_trans (by norm_num) (crimes_homicidios_ge_one je), ?_, ?_, ?_, ?_⟩ <;>
    exact pyInt_nonneg _ (mul_nonneg hq (by norm_num))

lemma crimes_total_nonneg (je : ℤ) (h : 0 ≤ je) : 0 ≤ (crimes_evitados_calc je).total := by
  obtain ⟨h1, h2, h3, h4, h5⟩ := crimes_fields_nonneg je h
  unfold CrimesEvitados.total
  omega

lemma crime_total_crimes_nonneg (je : ℤ) (h0 : 0 ≤ je) :
    0 ≤ ((crimes_evitados_calc je).homicidios : ℚ) * 1000000 +
      ((crimes_evitados_calc je).roubos : ℚ) * 114000 +
      ((crimes_evitados_calc je).furtos : ℚ) * 50000 +
      ((crimes_evitados_calc je).trafico : ℚ) * 100000 +
      ((crimes_evitados_calc je).outros : ℚ) * 20000 := by
  obtain ⟨h1, h2, h3, h4, h5⟩ := crimes_fields_nonneg je h0
  have c1 : (0:ℚ) ≤ ((crimes_evitados_calc je).homicidios : ℚ) := by exact_mod_cast h1
  have c2 : (0:ℚ) ≤ ((crimes_evitados_calc je).roubos : ℚ) := by exact_mod_cast h2
  have c3 : (0:ℚ) ≤ ((crimes_evitados_calc je).furtos : ℚ) := by exact_mod_cast h3
  have c4 : (0:ℚ) ≤ ((crimes_evitados_calc je).trafico : ℚ) := by exact_mod_cast h4
  have c5 : (0:ℚ) ≤ ((crimes_evitados_calc je).outros : ℚ) := by exact_mod_cast h5
  refine add_nonneg (add_nonneg (add_nonneg (add_nonneg ?_ ?_) ?_) ?_) ?_ <;>
    exact mul_nonneg (by assumption) (by norm_num)

lemma crime_roi_nonneg (inv : ℚ) (j d : ℤ) (taxa : ℚ) (area : String) (pop : ℤ)
    (hj : 0 ≤ j) (ht : 0 ≤ taxa) (hd : 0 ≤ d) :
    0 ≤ (calcular_impacto_crime inv j d taxa area pop).roi_seguranca := by
  simp only [calcular_impacto_crime]
  apply pyRound2_nonneg
  by_cases hinv : 0 < inv
  · rw [if_pos hinv]
    apply div_nonneg _ hinv.le
    rw [get_custo_crime_homicidio, get_custo_crime_roubo, get_custo_crime_furto,
      get_custo_preso_estadual]
    have h0 : 0 ≤ jovens_evitam_crime_calc j taxa area := jovens_evitam_nonneg j taxa area hj ht
    obtain ⟨h1, h2, h3, h4, h5⟩ := crimes_fields_nonneg _ h0
    have chh : (0:ℚ) ≤ ((crimes_evitados_calc (jovens_evitam_crime_calc j taxa area)).homicidios : ℚ) := by
      exact_mod_cast h1
    have hro : (0:ℚ) ≤ (((crimes_evitados_calc (jovens_evitam_crime_calc j taxa area)).roubos +
        (crimes_evitados_calc (jovens_evitam_crime_calc j taxa area)).outros : ℤ) : ℚ) := by
      have : (0:ℤ) ≤ (crimes_evitados_calc (jovens_evitam_crime_calc j taxa area)).roubos +
          (crimes_evitados_calc (jovens_evitam_crime_calc j taxa area)).outros := by omega
      exact_mod_cast this
    have henc : (0:ℚ) ≤ (pyInt ((jovens_evitam_crime_calc j taxa area : ℚ) * (30/100)) : ℚ) := by
      have hq : (0:ℚ) ≤ (jovens_evitam_crime_calc j taxa area : ℚ) := by exact_mod_cast h0
      have := pyInt_nonneg _ (mul_nonneg hq (by norm_num : (0:ℚ) ≤ 30/100))
      exact_mod_cast this
    have hmin : (0:ℚ) ≤ ((min d 5 : ℤ) : ℚ) := by
      have : (0:ℤ) ≤ min d 5 := le_min hd (by norm_num)
      exact_mod_cast this
    refine add_nonneg (add_nonneg (add_nonneg
      (crime_total_crimes_nonneg _ h0) ?_)
      (mul_nonneg (crime_total_crimes_nonneg _ h0) (by norm_num))) ?_
    · exact mul_nonneg (mul_nonneg henc (by norm_num)) hmin
    · exact add_nonneg (mul_nonneg chh (by norm_num)) (mul_nonneg hro (by norm_num))
  · rw [if_neg hinv]

/-! ## Environmental calculator lemmas -/

lemma ambiental_benefits_nonneg (h : ℚ) (anos : ℤ) (psa carb : Bool)
    (hh : 0 ≤ h) (ha : 0 ≤ anos) :
    0 ≤ (if carb = true then
        (if carb = true then h * sequestro_floresta_ton_ha_ano * (anos : ℚ) else 0) *
          (preco_tonelada_co2_usd_medio * cotacao_dolar)
      else 0) +
      (if psa = true then
        h * ((valor_hectare_conservado_ano_min + valor_hectare_conservado_ano_max) / 2) *
          (anos : ℚ)
      else 0) +
      h * 500 * (anos : ℚ) := by
  have haq : (0:ℚ) ≤ (anos : ℚ) := by exact_mod_cast ha
  simp only [sequestro_floresta_ton_ha_ano, preco_tonelada_co2_usd_medio, cotacao_dolar,
    valor_hectare_conservado_ano_min, valor_hectare_conservado_ano_max]
  refine add_nonneg (add_nonneg ?_ ?_) ?_ <;>
    try split_ifs
  all_goals
    first
      | exact le_refl (0:ℚ)
      | exact mul_nonneg (mul_nonneg (mul_nonneg hh (by norm_num)) haq) (by norm_num)
      | exact mul_nonneg (mul_nonneg hh (by norm_num)) haq

lemma ambiental_roi_ge_neg_one (inv h : ℚ) (bioma metodo : String) (anos : ℤ)
    (psa carb : Bool) (hh : 0 ≤ h) (ha : 0 ≤ anos) :
    -1 ≤ (calcular_impacto_ambiental inv h bioma metodo anos psa carb).roi_ambiental := by
  simp only [calcular_impacto_ambiental]
  have h100 : (-1 : ℚ) = ((-100 : ℤ) : ℚ)/100 := by norm_num
  rw [h100]
  apply le_pyRound2
  rw [← h100]
  by_cases hinv : 0 < inv
  · rw [if_pos hinv, sub_div, div_self (ne_of_gt hinv)]
    have hdiv := div_nonneg (ambiental_benefits_nonneg h anos psa carb hh ha) hinv.le
    linarith
  · rw [if_neg hinv]
    norm_num

/-! ## Social-multiplier lemmas -/

lemma calcular_multiplicador_social_eq (b : ℤ) (hb : b ≠ 0) :
    calcular_multiplicador_social b = some
      { beneficiarios_diretos := b
        impacto_familiar := pyInt ((b : ℚ) * (7/2))
        impacto_comunitario := pyInt ((pyInt ((b : ℚ) * (7/2)) : ℚ) * 2)
        impacto_total := pyInt ((pyInt ((b : ℚ) * (7/2)) : ℚ) * 2)
        multiplicador_total :=
          pyRound2 ((pyInt ((pyInt ((b : ℚ) * (7/2)) : ℚ) * 2) : ℚ) / (b : ℚ)) } := by
  simp only [calcular_multiplicador_social, if_neg hb]

lemma impacto_total_nonneg (b : ℤ) (hb : 1 ≤ b) :
    0 ≤ pyInt ((pyInt ((b : ℚ) * (7/2)) : ℚ) * 2) := by
  have h1 : (0:ℚ) ≤ (b : ℚ) * (7/2) := by
    have : (0:ℚ) ≤ (b : ℚ) := by exact_mod_cast le_trans (by norm_num) hb
    exact mul_nonneg this (by norm_num)
  have h2 : (0:ℤ) ≤ pyInt ((b : ℚ) * (7/2)) := pyInt_nonneg _ h1
  apply pyInt_nonneg
  have : (0:ℚ) ≤ (pyInt ((b : ℚ) * (7/2)) : ℚ) := by exact_mod_cast h2
  linarith

/-! ## Integrated calculator: structural specification -/

lemma integrado_some_spec (nome : String) (inv : ℚ) (tipo : String)
    (b d e f a j : ℤ) (h : ℚ) (bioma : String) (cc ca : Bool)
    (r : ResultadoIntegrado)
    (hr : calcular_visia_integrado nome inv tipo b d e f a j h bioma cc ca = some r) :
    calcular_sroi inv tipo b d e f a h = some r.sroi ∧
    r.crime = (if cc ∧ 0 < j then
        some (calcular_impacto_crime (inv * (3/10)) j d (7/10) "urbana" 100000)
      else none) ∧
    r.ambiental = (if ca ∧ 0 < h then
        some (calcular_impacto_ambiental (inv * (4/10)) h bioma "plantio_total"
          (max d 10) true true)
      else none) ∧
    r.fiscal = calcular_retorno_fiscal inv e f
      (match r.crime with
        | some c => c.crimes_evitados.total
        | none => 0) 0 (max d 10) ∧
    r.impacto_total_pessoas = pyInt ((pyInt ((b : ℚ) * (7/2)) : ℚ) * 2) ∧
    r.uisv = pyRound2 (r.sroi.sroi * 2 + r.fiscal.roi_fiscal * 3 +
      (r.impacto_total_pessoas : ℚ) / 100 + bonusCrime r.crime + bonusAmbiental r.ambiental) ∧
    r.tcs_recomendados = max 100 (pyInt (r.uisv * (3/10) * (inv / 10000))) ∧
    r.classificacao = classificar r.uisv ∧
    r.beneficiarios_diretos = b ∧
    r.investimento_total = inv ∧
    r.projeto = nome := by
  by_cases hb : b = 0
  · rw [calcular_visia_integrado] at hr
    rcases hs : calcular_sroi inv tipo b d e f a h with - | rs
    · rw [hs] at hr
      exact absurd hr (by simp)
    · rw [hs] at hr
      simp only [calcular_multiplicador_social, if_pos hb] at hr
      exact absurd hr (by simp)
  · rw [calcular_visia_integrado] at hr
    rcases hs : calcular_sroi inv tipo b d e f a h with - | rs
    · rw [hs] at hr
      exact absurd hr (by simp)
    · rw [hs] at hr
      rw [calcular_multiplicador_social_eq b hb] at hr
      simp only [Option.some.injEq] at hr
      subst hr
      exact ⟨rfl, rfl, rfl, rfl, rfl, rfl, rfl, rfl, rfl, rfl, rfl⟩

lemma integrado_exists (nome : String) (inv : ℚ) (tipo : String)
    (b d e f a j : ℤ) (h : ℚ) (bioma : String) (cc ca : Bool) (hb : b ≠ 0) :
    ∃ r, calcular_visia_integrado nome inv tipo b d e f a j h bioma cc ca = some r := by
  obtain ⟨rs, hs⟩ := calcular_sroi_isSome inv tipo b d e f a h hb
  simp only [calcular_visia_integrado, hs, calcular_multiplicador_social_eq b hb]
  exact ⟨_, rfl⟩

lemma uisv_ge_half (nome : String) (inv : ℚ) (tipo : String)
    (b d e f a j : ℤ) (h : ℚ) (bioma : String) (cc ca : Bool)
    (r : ResultadoIntegrado) (hb : 1 ≤ b) (hd : 0 ≤ d)
    (hr : calcular_visia_integrado nome inv tipo b d e f a j h bioma cc ca = some r) :
    (1:ℚ)/2 ≤ r.uisv := by
  obtain ⟨hs, hc, ha2, hf, himp, huisv, -, -, -, -, -⟩ :=
    integrado_some_spec nome inv tipo b d e f a j h bioma cc ca r hr
  have h1 : (1:ℚ)/2 ≤ r.sroi.sroi := calcular_sroi_ge_half inv tipo b d e f a h r.sroi hs
  have h2 : 0 ≤ r.fiscal.roi_fiscal := by
    rw [hf]
    exact fiscal_roi_nonneg inv e f _ 0 _ (le_trans (by norm_num) (le_max_right d 10))
  have h3 : (0:ℚ) ≤ (r.impacto_total_pessoas : ℚ) := by
    rw [himp]
    exact_mod_cast impacto_total_nonneg b hb
  have h4 : 0 ≤ bonusCrime r.crime := by
    rw [hc]
    split_ifs with hcond
    · have := crime_roi_nonneg (inv * (3/10)) j d (7/10) "urbana" 100000
        hcond.2.le (by norm_num) hd
      simp only [bonusCrime]
      linarith
    · simp [bonusCrime]
  have h5 : -(1:ℚ)/2 ≤ bonusAmbiental r.ambiental := by
    rw [ha2]
    split_ifs with hcond
    · have := ambiental_roi_ge_neg_one (inv * (4/10)) h bioma "plantio_total" (max d 10)
        true true hcond.2.le (le_trans (by norm_num) (le_max_right d 10))
      simp only [bonusAmbiental]
      linarith
    · norm_num [bonusAmbiental]
  rw [huisv]
  have h50 : ((50:ℤ):ℚ)/100 = 1/2 := by norm_num
  rw [← h50]
  apply le_pyRound2
  rw [h50]
  have h6 : (0:ℚ) ≤ (r.impacto_total_pessoas : ℚ) / 100 := by linarith
  linarith

/-! ## Claim theorems -/

/-- C10: calling `calcular_visia_integrado` with `beneficiarios_diretos = 0`
raises an unguarded `ZeroDivisionError` (modelled as `none`) instead of
returning a result or a validation error: `calcular_multiplicador_social`
divides by the beneficiary count unconditionally, and the SROI baseline
fallback (no impact-signal component) also divides by it. -/
theorem C10_beneficiaries_zero_division :
    (∀ (nome : String) (inv : ℚ) (tipo : String) (d e f a j : ℤ) (h : ℚ)
      (bioma : String) (cc ca : Bool),
      calcular_visia_integrado nome inv tipo 0 d e f a j h bioma cc ca = none) ∧
    calcular_multiplicador_social 0 = none ∧
    (∀ (inv : ℚ) (tipo : String) (d : ℤ), calcular_sroi inv tipo 0 d 0 0 0 0 = none) := by
  refine ⟨?_, rfl, ?_⟩
  · intro nome inv tipo d e f a j h bioma cc ca
    rcases hs : calcular_sroi inv tipo 0 d e f a h with - | rs <;>
      simp [calcular_visia_integrado, hs, calcular_multiplicador_social]
  · intro inv tipo d
    simp [calcular_sroi]

/-- C1 counterexample: with investment = 0 and one beneficiary (all optional
signals zero) the integrated calculator does NOT stop with a validation
error — it produces a `ResultadoIntegrado`, refuting the claim that no
`CompositeResult` is produced. -/
theorem C1_counterexample :
    (calcular_visia_integrado "proj" 0 "educacao" 1 1 0 0 0 0 0 "mata_atlantica"
      true true).isSome = true := by
  obtain ⟨r, hr⟩ := integrado_exists "proj" 0 "educacao" 1 1 0 0 0 0 0
    "mata_atlantica" true true (by norm_num)
  rw [hr]
  rfl

/-- C1 (amended): `calcular_visia_integrado` performs no input validation at
all; for every beneficiary count ≥ 1 — investment zero or negative included —
it runs to completion and returns a `ResultadoIntegrado` (the divisions by
investment are individually guarded inside the calculators). -/
theorem C1_no_validation (nome : String) (inv : ℚ) (tipo : String)
    (b d e f a j : ℤ) (h : ℚ) (bioma : String) (cc ca : Bool) (hb : 1 ≤ b) :
    (calcular_visia_integrado nome inv tipo b d e f a j h bioma cc ca).isSome = true := by
  obtain ⟨r, hr⟩ := integrado_exists nome inv tipo b d e f a j h bioma cc ca (by omega)
  rw [hr]
  rfl

/-- C1 witness: the amended theorem at a concrete negative investment. -/
theorem C1_no_validation_witness :
    (1:ℤ) ≤ 1 ∧
    (calcular_visia_integrado "q" (-5) "saude" 1 2 0 0 0 0 0 "cerrado"
      true true).isSome = true :=
  ⟨by norm_num,
   C1_no_validation "q" (-5) "saude" 1 2 0 0 0 0 0 "cerrado" true true (by norm_num)⟩

/-- C2: for every valid input (positive investment) accepted by
`calcular_sroi`, the stored `sroi` is the 2-decimal rounding of
`max(range.min × 0.5, min(sroiRaw, range.max × 1.5))` and lies in the closed
band `[0.5 × range.min, 1.5 × range.max]` of the resolved reference range. -/
theorem C2_sroi_clamped (inv : ℚ) (t : String) (b d e f a : ℤ) (h : ℚ)
    (r : ResultadoSROI) (hinv : 0 < inv)
    (hr : calcular_sroi inv t b d e f a h = some r) :
    (get_sroi_referencia t).min * (1/2) ≤ r.sroi ∧
    r.sroi ≤ (get_sroi_referencia t).max * (3/2) ∧
    r.sroi = pyRound2 (max ((get_sroi_referencia t).min * (1/2))
      (min (r.valor_social_liquido / inv) ((get_sroi_referencia t).max * (3/2)))) := by
  obtain ⟨h1, h2⟩ := calcular_sroi_bounds inv t b d e f a h r hr
  have h3 := calcular_sroi_some_spec inv t b d e f a h r hr
  rw [if_pos hinv] at h3
  exact ⟨h1, h2, h3⟩

/-- C2 witness: the spec's scenario (investment 500000, education project,
200 beneficiaries, 30 jobs, 50 retained students). -/
theorem C2_sroi_clamped_witness :
    ∃ r, calcular_sroi 500000 "educacao" 200 2 30 0 50 0 = some r ∧
      (get_sroi_referencia "educacao").min * (1/2) ≤ r.sroi ∧
      r.sroi ≤ (get_sroi_referencia "educacao").max * (3/2) := by
  obtain ⟨r, hr⟩ := calcular_sroi_isSome 500000 "educacao" 200 2 30 0 50 0 (by norm_num)
  obtain ⟨h1, h2, -⟩ := C2_sroi_clamped 500000 "educacao" 200 2 30 0 50 0 r
    (by norm_num) hr
  exact ⟨r, hr, h1, h2⟩

/-- C8: the fiscal calculator's payback field: the aggregate fiscal return is
never negative; when it is zero the payback is the explicit infinite sentinel
(never a division fault), and when it is positive the payback equals
`investment / (totalReturn / horizon)` (stored rounded to 1 decimal). -/
theorem C8_payback_sentinel (inv : ℚ) (e f c i anos : ℤ) (hanos : 0 < anos) :
    0 ≤ (calcular_retorno_fiscal inv e f c i anos).retorno_fiscal_total ∧
    ((calcular_retorno_fiscal inv e f c i anos).retorno_fiscal_total = 0 →
      (calcular_retorno_fiscal inv e f c i anos).tempo_payback_anos = Payback.inf) ∧
    (0 < (calcular_retorno_fiscal inv e f c i anos).retorno_fiscal_total →
      (calcular_retorno_fiscal inv e f c i anos).tempo_payback_anos =
        Payback.finite (pyRound1 (inv /
          ((calcular_retorno_fiscal inv e f c i anos).retorno_fiscal_total / (anos : ℚ))))) := by
  refine ⟨?_, ?_, ?_⟩
  · simp only [calcular_retorno_fiscal]
    exact fiscal_total_nonneg e f c i anos hanos.le
  · intro h0
    simp only [calcular_retorno_fiscal] at h0 ⊢
    rw [if_pos hanos, h0]
    simp
  · intro hpos
    simp only [calcular_retorno_fiscal] at hpos ⊢
    rw [if_pos hanos]
    have hq : (0:ℚ) < (anos : ℚ) := by exact_mod_cast hanos
    rw [if_pos (div_pos hpos hq)]

/-- C8 witness: with no revenue streams the payback sentinel is infinite. -/
theorem C8_payback_sentinel_witness :
    (calcular_retorno_fiscal 500000 0 0 0 0 10).tempo_payback_anos = Payback.inf := by
  apply (C8_payback_sentinel 500000 0 0 0 0 10 (by norm_num)).2.1
  norm_num [calcular_retorno_fiscal]

/-- C4: the tier assignment is a total, non-overlapping partition of the uisv
value, evaluated top-down with boundaries in the higher tier
(`≥20 → A`, `[12,20) → B`, `[6,12) → C`, `<6 → D`; 20.0 → A, 19.999 → B,
6.0 → C, 5.999 → D), and the classification stored by
`calcular_visia_integrado` is exactly this function of the stored uisv. -/
theorem C4_classification :
    (∀ u : ℚ, (classificar u = "A" ↔ 20 ≤ u) ∧
      (classificar u = "B" ↔ 12 ≤ u ∧ u < 20) ∧
      (classificar u = "C" ↔ 6 ≤ u ∧ u < 12) ∧
      (classificar u = "D" ↔ u < 6)) ∧
    classificar 20 = "A" ∧ classificar (19999/1000) = "B" ∧
    classificar 6 = "C" ∧ classificar (5999/1000) = "D" ∧
    (∀ (nome : String) (inv : ℚ) (tipo : String) (b d e f a j : ℤ) (h : ℚ)
      (bioma : String) (cc ca : Bool) (r : ResultadoIntegrado),
      calcular_visia_integrado nome inv tipo b d e f a j h bioma cc ca = some r →
      r.classificacao = classificar r.uisv) := by
  have hiff : ∀ u : ℚ, (classificar u = "A" ↔ 20 ≤ u) ∧
      (classificar u = "B" ↔ 12 ≤ u ∧ u < 20) ∧
      (classificar u = "C" ↔ 6 ≤ u ∧ u < 12) ∧
      (classificar u = "D" ↔ u < 6) := by
    intro u
    unfold classificar
    split_ifs with h1 h2 h3
    · exact ⟨⟨fun _ => h1, fun _ => rfl⟩,
        ⟨fun hx => absurd hx (by decide), fun hx => absurd h1 (not_le.mpr hx.2)⟩,
        ⟨fun hx => absurd hx (by decide), fun hx => absurd h1 (by linarith [hx.2])⟩,
        ⟨fun hx => absurd hx (by decide), fun hx => absurd h1 (by linarith)⟩⟩
    · exact ⟨⟨fun hx => absurd hx (by decide), fun hx => absurd hx h1⟩,
        ⟨fun _ => ⟨h2, not_le.mp h1⟩, fun _ => rfl⟩,
        ⟨fun hx => absurd hx (by decide), fun hx => absurd h2 (by linarith [hx.2])⟩,
        ⟨fun hx => absurd hx (by decide), fun hx => absurd h2 (by linarith)⟩⟩
    · exact ⟨⟨fun hx => absurd hx (by decide), fun hx => absurd hx h1⟩,
        ⟨fun hx => absurd hx (by decide), fun hx => absurd hx.1 h2⟩,
        ⟨fun _ => ⟨h3, not_le.mp h2⟩, fun _ => rfl⟩,
        ⟨fun hx => absurd hx (by decide), fun hx => absurd h3 (by linarith)⟩⟩
    · exact ⟨⟨fun hx => absurd hx (by decide), fun hx => absurd hx h1⟩,
        ⟨fun hx => absurd hx (by decide), fun hx => absurd hx.1 h2⟩,
        ⟨fun hx => absurd hx (by decide), fun hx => absurd hx.1 h3⟩,
        ⟨fun _ => not_le.mp h3, fun _ => rfl⟩⟩
  refine ⟨hiff, ?_, ?_, ?_, ?_, ?_⟩
  · exact (hiff 20).1.mpr (by norm_num)
  · exact (hiff (19999/1000)).2.1.mpr (by constructor <;> norm_num)
  · exact (hiff 6).2.2.1.mpr (by constructor <;> norm_num)
  · exact (hiff (5999/1000)).2.2.2.mpr (by norm_num)
  · intro nome inv tipo b d e f a j h bioma cc ca r hr
    exact (integrado_some_spec nome inv tipo b d e f a j h bioma cc ca r hr).2.2.2.2.2.2.2.1

/-- C4 witness: a concrete scoring run whose stored classification matches
the threshold function of its stored uisv. -/
theorem C4_classification_witness :
    ∃ r, calcular_visia_integrado "p" 1000 "educacao" 10 1 0 0 0 0 0
        "mata_atlantica" true true = some r ∧
      r.classificacao = classificar r.uisv := by
  obtain ⟨r, hr⟩ := integrado_exists "p" 1000 "educacao" 10 1 0 0 0 0 0
    "mata_atlantica" true true (by norm_num)
  exact ⟨r, hr, C4_classification.2.2.2.2.2 "p" 1000 "educacao" 10 1 0 0 0 0 0
    "mata_atlantica" true true r hr⟩

/-- C7: with both optional calculators enabled, zero youths served leaves the
crime sub-result absent with a zero crime bonus, and zero hectares leaves the
environmental sub-result absent with a zero environmental bonus; the stored
uisv is the rounded sum in which those bonuses participate. -/
theorem C7_optional_subresults (nome : String) (inv : ℚ) (tipo : String)
    (b d e f a j : ℤ) (h : ℚ) (bioma : String) (r : ResultadoIntegrado)
    (hr : calcular_visia_integrado nome inv tipo b d e f a j h bioma true true = some r) :
    (j = 0 → r.crime = none ∧ bonusCrime r.crime = 0) ∧
    (h = 0 → r.ambiental = none ∧ bonusAmbiental r.ambiental = 0) ∧
    r.uisv = pyRound2 (r.sroi.sroi * 2 + r.fiscal.roi_fiscal * 3 +
      (r.impacto_total_pessoas : ℚ) / 100 + bonusCrime r.crime + bonusAmbiental r.ambiental) := by
  obtain ⟨-, hc, ha2, -, -, huisv, -, -, -, -, -⟩ :=
    integrado_some_spec nome inv tipo b d e f a j h bioma true true r hr
  refine ⟨fun hj => ?_, fun hh => ?_, huisv⟩
  · subst hj
    have hnone : r.crime = none := by rw [hc]; simp
    exact ⟨hnone, by rw [hnone]; rfl⟩
  · subst hh
    have hnone : r.ambiental = none := by rw [ha2]; simp
    exact ⟨hnone, by rw [hnone]; rfl⟩

/-- C7 witness: a run with zero youths and zero hectares has both optional
sub-results absent. -/
theorem C7_optional_subresults_witness :
    ∃ r, calcular_visia_integrado "p" 1000 "saude" 5 1 0 0 0 0 0 "cerrado"
        true true = some r ∧ r.crime = none ∧ r.ambiental = none := by
  obtain ⟨r, hr⟩ := integrado_exists "p" 1000 "saude" 5 1 0 0 0 0 0 "cerrado"
    true true (by norm_num)
  obtain ⟨h1, h2, -⟩ := C7_optional_subresults "p" 1000 "saude" 5 1 0 0 0 0 0
    "cerrado" r hr
  exact ⟨r, hr, (h1 rfl).1, (h2 rfl).1⟩

/-- C3: the composite index stored by `calcular_visia_integrado` is
`round((sroi × 2) + (fiscalRoi × 3) + (totalPeopleImpact / 100) + crimeBonus +
environmentalBonus, 2)` with `totalPeopleImpact =
floor(floor(beneficiaries × 3.5) × 2.0)` and the bonuses given by
`bonusCrime` / `bonusAmbiental` (each `returnRatio × 0.5`, 0 when the
sub-calculator was skipped). -/
theorem C3_uisv_formula (nome : String) (inv : ℚ) (tipo : String)
    (b d e f a j : ℤ) (h : ℚ) (bioma : String) (cc ca : Bool)
    (r : ResultadoIntegrado) (hb : 1 ≤ b)
    (hr : calcular_visia_integrado nome inv tipo b d e f a j h bioma cc ca = some r) :
    r.impacto_total_pessoas = ⌊((⌊(b : ℚ) * (7/2)⌋ : ℤ) : ℚ) * 2⌋ ∧
    r.uisv = pyRound2 (r.sroi.sroi * 2 + r.fiscal.roi_fiscal * 3 +
      (r.impacto_total_pessoas : ℚ) / 100 + bonusCrime r.crime + bonusAmbiental r.ambiental) := by
  obtain ⟨-, -, -, -, himp, huisv, -, -, -, -, -⟩ :=
    integrado_some_spec nome inv tipo b d e f a j h bioma cc ca r hr
  refine ⟨?_, huisv⟩
  rw [himp]
  have hbq : (0:ℚ) ≤ (b : ℚ) := by exact_mod_cast le_trans zero_le_one hb
  have h1 : (0:ℚ) ≤ (b : ℚ) * (7/2) := mul_nonneg hbq (by norm_num)
  rw [pyInt_of_nonneg _ h1]
  have h2 : (0:ℚ) ≤ ((⌊(b : ℚ) * (7/2)⌋ : ℤ) : ℚ) * 2 := by
    have := Int.floor_nonneg.mpr h1
    have hc : (0:ℚ) ≤ ((⌊(b : ℚ) * (7/2)⌋ : ℤ) : ℚ) := by exact_mod_cast this
    linarith
  rw [pyInt_of_nonneg _ h2]

/-- C3 witness: the formula instantiated on a concrete run. -/
theorem C3_uisv_formula_witness :
    ∃ r, calcular_visia_integrado "p" 2000 "educacao" 10 1 0 0 0 0 0
        "mata_atlantica" true true = some r ∧
      r.impacto_total_pessoas = ⌊((⌊((10:ℤ) : ℚ) * (7/2)⌋ : ℤ) : ℚ) * 2⌋ := by
  obtain ⟨r, hr⟩ := integrado_exists "p" 2000 "educacao" 10 1 0 0 0 0 0
    "mata_atlantica" true true (by norm_num)
  obtain ⟨h1, -⟩ := C3_uisv_formula "p" 2000 "educacao" 10 1 0 0 0 0 0
    "mata_atlantica" true true r (by norm_num) hr
  exact ⟨r, hr, h1⟩

/-- C5: for every valid input (positive investment, at least one beneficiary,
duration ≥ 1), the recommended credit quantity equals
`max(100, floor(uisv × 0.3 × (investment / 10000)))`, so it is at least 100
no matter how low the uisv is. -/
theorem C5_credits_floor (nome : String) (inv : ℚ) (tipo : String)
    (b d e f a j : ℤ) (h : ℚ) (bioma : String) (cc ca : Bool)
    (r : ResultadoIntegrado) (hinv : 0 < inv) (hb : 1 ≤ b) (hd : 1 ≤ d)
    (hr : calcular_visia_integrado nome inv tipo b d e f a j h bioma cc ca = some r) :
    r.tcs_recomendados = max 100 ⌊r.uisv * (3/10) * (inv / 10000)⌋ ∧
    100 ≤ r.tcs_recomendados := by
  obtain ⟨-, -, -, -, -, -, htcs, -, -, -, -⟩ :=
    integrado_some_spec nome inv tipo b d e f a j h bioma cc ca r hr
  have hu : (1:ℚ)/2 ≤ r.uisv :=
    uisv_ge_half nome inv tipo b d e f a j h bioma cc ca r hb (by omega) hr
  have hprod : 0 ≤ r.uisv * (3/10) * (inv / 10000) :=
    mul_nonneg (mul_nonneg (by linarith) (by norm_num))
      (div_nonneg hinv.le (by norm_num))
  rw [htcs, pyInt_of_nonneg _ hprod]
  exact ⟨rfl, le_max_left _ _⟩

/-- C5 witness: a concrete valid run receives at least 100 credits. -/
theorem C5_credits_floor_witness :
    ∃ r, calcular_visia_integrado "p" 1000 "esporte" 3 1 0 0 0 0 0 "pampa"
        true true = some r ∧ 100 ≤ r.tcs_recomendados := by
  obtain ⟨r, hr⟩ := integrado_exists "p" 1000 "esporte" 3 1 0 0 0 0 0 "pampa"
    true true (by norm_num)
  obtain ⟨-, h2⟩ := C5_credits_floor "p" 1000 "esporte" 3 1 0 0 0 0 0 "pampa"
    true true r (by norm_num) (by norm_num) (by norm_num) hr
  exact ⟨r, hr, h2⟩

/-- C6: the crime calculator's avoided involvement is
`floor(youths × baseRate × reductionRate)` with base rate 0.05 for urban areas
and 0.03 otherwise, each category count is the floor of the fixed proportions
(homicide 2%, robbery 15%, theft 25%, trafficking 10%, other 48%) with the
homicide count forced to at least 1 whenever the avoided involvement is
positive; for 150 youths at the defaults the avoided involvement is 5 and the
homicide category is at least 1. -/
theorem C6_crime_distribution (inv : ℚ) (j d : ℤ) (taxa : ℚ) (area : String)
    (pop : ℤ) (hj : 0 ≤ j) (ht : 0 ≤ taxa) :
    (jovens_evitam_crime_calc j taxa area =
      ⌊(j : ℚ) * taxa_envolvimento_base area * taxa⌋ ∧
     (calcular_impacto_crime inv j d taxa area pop).crimes_evitados.homicidios =
       max 1 ⌊(jovens_evitam_crime_calc j taxa area : ℚ) * (2/100)⌋ ∧
     (calcular_impacto_crime inv j d taxa area pop).crimes_evitados.roubos =
       ⌊(jovens_evitam_crime_calc j taxa area : ℚ) * (15/100)⌋ ∧
     (calcular_impacto_crime inv j d taxa area pop).crimes_evitados.furtos =
       ⌊(jovens_evitam_crime_calc j taxa area : ℚ) * (25/100)⌋ ∧
     (calcular_impacto_crime inv j d taxa area pop).crimes_evitados.trafico =
       ⌊(jovens_evitam_crime_calc j taxa area : ℚ) * (10/100)⌋ ∧
     (calcular_impacto_crime inv j d taxa area pop).crimes_evitados.outros =
       ⌊(jovens_evitam_crime_calc j taxa area : ℚ) * (48/100)⌋ ∧
     (0 < jovens_evitam_crime_calc j taxa area →
       1 ≤ (calcular_impacto_crime inv j d taxa area pop).crimes_evitados.homicidios)) ∧
    taxa_envolvimento_base "urbana" = 1/20 ∧
    (∀ s, s ≠ "urbana" → taxa_envolvimento_base s = 3/100) ∧
    jovens_evitam_crime_calc 150 (7/10) "urbana" = 5 ∧
    1 ≤ (calcular_impacto_crime 300000 150 3 (7/10) "urbana"
      100000).crimes_evitados.homicidios := by
  have hje : 0 ≤ jovens_evitam_crime_calc j taxa area := jovens_evitam_nonneg j taxa area hj ht
  have hjeq : (0:ℚ) ≤ (jovens_evitam_crime_calc j taxa area : ℚ) := by exact_mod_cast hje
  have hcrimes : (calcular_impacto_crime inv j d taxa area pop).crimes_evitados =
      crimes_evitados_calc (jovens_evitam_crime_calc j taxa area) := rfl
  refine ⟨⟨?_, ?_, ?_, ?_, ?_, ?_, fun _ => ?_⟩, rfl, fun s hs => ?_, ?_, ?_⟩
  · unfold jovens_evitam_crime_calc
    exact pyInt_of_nonneg _ (mul_nonneg (mul_nonneg (by exact_mod_cast hj)
      (taxa_envolvimento_base_nonneg area)) ht)
  · rw [hcrimes]
    simp only [crimes_evitados_calc]
    rw [pyInt_of_nonneg _ (mul_nonneg hjeq (by norm_num))]
  · rw [hcrimes]
    simp only [crimes_evitados_calc]
    rw [pyInt_of_nonneg _ (mul_nonneg hjeq (by norm_num))]
  · rw [hcrimes]
    simp only [crimes_evitados_calc]
    rw [pyInt_of_nonneg _ (mul_nonneg hjeq (by norm_num))]
  · rw [hcrimes]
    simp only [crimes_evitados_calc]
    rw [pyInt_of_nonneg _ (mul_nonneg hjeq (by norm_num))]
  · rw [hcrimes]
    simp only [crimes_evitados_calc]
    rw [pyInt_of_nonneg _ (mul_nonneg hjeq (by norm_num))]
  · rw [hcrimes]
    exact crimes_homicidios_ge_one _
  · unfold taxa_envolvimento_base
    rw [if_neg hs]
  · have hu : taxa_envolvimento_base "urbana" = 1/20 := rfl
    norm_num [jovens_evitam_crime_calc, hu, pyInt]
  · exact crimes_homicidios_ge_one _

/-- C6 witness: the theorem instantiated at the spec scenario
(150 youths, default rates). -/
theorem C6_crime_distribution_witness :
    jovens_evitam_crime_calc 150 (7/10) "urbana" =
      ⌊((150:ℤ) : ℚ) * taxa_envolvimento_base "urbana" * (7/10)⌋ ∧
    jovens_evitam_crime_calc 150 (7/10) "urbana" = 5 := by
  obtain ⟨⟨h1, -⟩, -, -, h4, -⟩ := C6_crime_distribution 300000 150 3 (7/10)
    "urbana" 100000 (by norm_num) (by norm_num)
  exact ⟨h1, h4⟩

lemma crime_economia_total_lb (inv : ℚ) (j d : ℤ) (taxa : ℚ) (area : String)
    (pop : ℤ) (hj : 0 ≤ j) (ht : 0 ≤ taxa) (hd : 0 ≤ d) :
    1050000 ≤ (calcular_impacto_crime inv j d taxa area pop).economia_total := by
  simp only [calcular_impacto_crime]
  rw [get_custo_crime_homicidio, get_custo_crime_roubo, get_custo_crime_furto,
    get_custo_preso_estadual]
  have h0 : 0 ≤ jovens_evitam_crime_calc j taxa area := jovens_evitam_nonneg j taxa area hj ht
  obtain ⟨-, h2, h3, h4, h5⟩ := crimes_fields_nonneg _ h0
  have hhom : (1:ℚ) ≤ ((crimes_evitados_calc (jovens_evitam_crime_calc j taxa area)).homicidios : ℚ) := by
    exact_mod_cast crimes_homicidios_ge_one (jovens_evitam_crime_calc j taxa area)
  have c2 : (0:ℚ) ≤ ((crimes_evitados_calc (jovens_evitam_crime_calc j taxa area)).roubos : ℚ) := by
    exact_mod_cast h2
  have c3 : (0:ℚ) ≤ ((crimes_evitados_calc (jovens_evitam_crime_calc j taxa area)).furtos : ℚ) := by
    exact_mod_cast h3
  have c4 : (0:ℚ) ≤ ((crimes_evitados_calc (jovens_evitam_crime_calc j taxa area)).trafico : ℚ) := by
    exact_mod_cast h4
  have c5 : (0:ℚ) ≤ ((crimes_evitados_calc (jovens_evitam_crime_calc j taxa area)).outros : ℚ) := by
    exact_mod_cast h5
  have hro : (0:ℚ) ≤ (((crimes_evitados_calc (jovens_evitam_crime_calc j taxa area)).roubos +
      (crimes_evitados_calc (jovens_evitam_crime_calc j taxa area)).outros : ℤ) : ℚ) := by
    have : (0:ℤ) ≤ (crimes_evitados_calc (jovens_evitam_crime_calc j taxa area)).roubos +
        (crimes_evitados_calc (jovens_evitam_crime_calc j taxa area)).outros := by omega
    exact_mod_cast this
  have henc : (0:ℚ) ≤ (pyInt ((jovens_evitam_crime_calc j taxa area : ℚ) * (30/100)) : ℚ) *
      27978 * ((min d 5 : ℤ) : ℚ) := by
    have hq : (0:ℚ) ≤ (jovens_evitam_crime_calc j taxa area : ℚ) := by exact_mod_cast h0
    have he : (0:ℚ) ≤ (pyInt ((jovens_evitam_crime_calc j taxa area : ℚ) * (30/100)) : ℚ) := by
      have := pyInt_nonneg _ (mul_nonneg hq (by norm_num : (0:ℚ) ≤ 30/100))
      exact_mod_cast this
    have hm : (0:ℚ) ≤ ((min d 5 : ℤ) : ℚ) := by
      have : (0:ℤ) ≤ min d 5 := le_min hd (by norm_num)
      exact_mod_cast this
    exact mul_nonneg (mul_nonneg he (by norm_num)) hm
  linarith

/-- C9: the homicide category of `calcular_impacto_crime` is at least 1
unconditionally — even when the avoided involvement is 0, as for 10 youths,
where `floor(10 × 0.05 × 0.70) = 0` — so whenever the crime calculator runs
its total avoided cost includes at least one monetized homicide plus its
health-cost component (≥ 1,050,000 for any nonnegative inputs; exactly
1,200,000 in the 10-youth case). -/
theorem C9_homicide_floor_unconditional :
    (∀ (inv : ℚ) (j d : ℤ) (taxa : ℚ) (area : String) (pop : ℤ),
      1 ≤ (calcular_impacto_crime inv j d taxa area pop).crimes_evitados.homicidios) ∧
    (∀ (inv : ℚ) (j d : ℤ) (taxa : ℚ) (area : String) (pop : ℤ),
      0 ≤ j → 0 ≤ taxa → 0 ≤ d →
      1050000 ≤ (calcular_impacto_crime inv j d taxa area pop).economia_total) ∧
    jovens_evitam_crime_calc 10 (7/10) "urbana" = 0 ∧
    (calcular_impacto_crime 100000 10 1 (7/10) "urbana"
      100000).crimes_evitados.homicidios = 1 ∧
    (calcular_impacto_crime 100000 10 1 (7/10) "urbana"
      100000).economia_total = 1200000 := by
  have hje10 : jovens_evitam_crime_calc 10 (7/10) "urbana" = 0 := by
    have hu : taxa_envolvimento_base "urbana" = 1/20 := rfl
    norm_num [jovens_evitam_crime_calc, hu, pyInt]
  refine ⟨?_, ?_, hje10, ?_, ?_⟩
  · intro inv j d taxa area pop
    exact crimes_homicidios_ge_one _
  · intro inv j d taxa area pop hj ht hd
    exact crime_economia_total_lb inv j d taxa area pop hj ht hd
  · show (crimes_evitados_calc (jovens_evitam_crime_calc 10 (7/10) "urbana")).homicidios = 1
    rw [hje10]
    norm_num [crimes_evitados_calc, pyInt, max_def]
  · simp only [calcular_impacto_crime]
    rw [get_custo_crime_homicidio, get_custo_crime_roubo, get_custo_crime_furto,
      get_custo_preso_estadual, hje10]
    norm_num [crimes_evitados_calc, pyInt, max_def, min_def]

/-- C9 witness: the lower bound instantiated at a rural, zero-avoidance-free
input. -/
theorem C9_homicide_floor_unconditional_witness :
    1050000 ≤ (calcular_impacto_crime 200000 50 2 (7/10) "rural" 1000).economia_total :=
  C9_homicide_floor_unconditional.2.1 200000 50 2 (7/10) "rural" 1000
    (by norm_num) (by norm_num) (by norm_num)
